import Mathlib

/-!
Shallow embedding of the subscription / authentication / notification core of
the azure-service-tags-tracker backend (src/api and src/scripts), with proofs
of the specification claims about it.

Modelling conventions:
* A MongoDB collection is a list of documents; `find_one` is `List.find?`
  (first match in natural order) and `update_one` on an `_id` filter is
  `updateById` (updates the first document carrying that `_id`).  Each
  document carries a numeric `docId` standing for its Mongo `_id`; MongoDB
  guarantees `_id` uniqueness, which theorems take as the `WF` hypothesis.
* `datetime.utcnow()` is an abstract tick `now : Nat`; order comparisons agree.
* `secrets.token_hex(...)` values are supplied as explicit `fresh...`
  arguments to the operations that mint them.
* Python dict fields that the code reads with `.get(key)` (possibly absent /
  `None`) are `Option`s; fields the code only ever reads with `doc[key]` are
  plain values.  `.get(key, default)` becomes `Option.getD`.
* `update_one(...).modified_count` is modelled as 1 exactly when a document
  matched the `_id` filter: on every reachable update in this code the `$set`
  flips the `status` field, so a matched document is always modified.
-/

namespace AzTracker

/-- Python `str.lower()` restricted to ASCII case mapping. -/
def pyLower (s : String) : String := ⟨s.data.map Char.toLower⟩

/-- Drop leading and trailing whitespace from a character list. -/
def stripL (l : List Char) : List Char :=
  ((l.dropWhile Char.isWhitespace).reverse.dropWhile Char.isWhitespace).reverse

/-- Python `str.strip()`: drop leading and trailing whitespace. -/
def pyStrip (s : String) : String := ⟨stripL s.data⟩

/-- Python `email.lower().strip()` (equivalently `.strip().lower()`), the email
normalization used throughout `subscription_manager.py` and `user_manager.py`. -/
def normEmail (s : String) : String := pyStrip (pyLower s)

/-- Python `a or b` on optional strings: `b` whenever `a` is `None` or `''`. -/
def pyOr (a b : Option String) : Option String :=
  match a with
  | some s => if s = "" then b else some s
  | none => b

/-- Python falsiness of an optional string (`None` or `''`). -/
def strFalsy : Option String → Bool
  | none => true
  | some s => s == ""

/-- A document of the `subscriptions` collection
(`subscription_manager.py`). -/
structure SubDoc where
  docId : Nat
  id : String
  email : String
  subscriptionType : String
  selectedServices : List String
  selectedRegions : List String
  ipQueries : List String
  user_id : Option String
  status : String
  unsubscribe_token : String
  plan : Option String
  plan_status : Option String
  plan_expires_at : Option Nat
  unsubscribe_verification_token : Option String
  verification_token_expiry : Option Nat
  unsubscribed_at : Option Nat
  unsubscribe_method : Option String
  resubscribed_at : Option Nat
  created_at : Nat
  updated_at : Nat
  deriving DecidableEq, Repr

/-- A document of the `users` collection (`user_manager.py`). -/
structure UserDoc where
  email : String
  password_hash : Option String
  plan : Option String
  plan_status : Option String
  plan_expires_at : Option Nat
  deriving DecidableEq, Repr

/-- A document of the `premium_accounts` collection (`user_manager.py`). -/
structure PremiumDoc where
  email : String
  plan : Option String
  status : Option String
  plan_expires_at : Option Nat
  deriving DecidableEq, Repr

/-- The plan triple returned by `UserManager.get_plan` /
`SubscriptionManager.get_plan`. -/
structure Plan where
  plan : String
  plan_status : String
  plan_expires_at : Option Nat
  deriving DecidableEq, Repr

/-- The decoded bearer-token payload passed to `create_subscription` as
`auth_user` (claims read with `.get`, hence `Option`s). -/
structure AuthUser where
  email : Option String
  sub : Option String
  user_id : Option String
  deriving DecidableEq, Repr

/-- The whole durable store: the three collections plus the next fresh
Mongo `_id` for `subscriptions` inserts. -/
structure Store where
  subs : List SubDoc
  users : List UserDoc
  premiums : List PremiumDoc
  nextDocId : Nat
  deriving DecidableEq, Repr

/-- `update_one` with an `_id` filter: rewrite the first document whose
`docId` matches, returning the new list and the modified count. -/
def updateById : List SubDoc → Nat → (SubDoc → SubDoc) → List SubDoc × Nat
  | [], _, _ => ([], 0)
  | d :: rest, i, f =>
    if d.docId = i then (f d :: rest, 1)
    else
      let r := updateById rest i f
      (d :: r.1, r.2)

/-- `SubscriptionManager.is_email_subscribed` (lines 201-208). -/
def isEmailSubscribed (st : Store) (email : String) : Bool :=
  let e := normEmail email
  (st.subs.find? (fun d => d.email == e && d.status == "active")).isSome

/-- The user-record fallback inside `UserManager.get_plan` (lines 79-86);
every Python `return` of a dict becomes `some`. -/
def userPlanFromUser (st : Store) (e : String) : Option Plan :=
  match st.users.find? (fun u => u.email == e) with
  | none => some ⟨"free", "inactive", none⟩
  | some u => some ⟨u.plan.getD "free", u.plan_status.getD "inactive", u.plan_expires_at⟩

/-- `UserManager.get_plan` (lines 70-86): the premium-entitlement record wins
when present with status `active`, else fall back to the user record. -/
def userGetPlan (st : Store) (email : String) : Option Plan :=
  let e := normEmail email
  match st.premiums.find? (fun p => p.email == e) with
  | some p =>
    if p.status.getD "inactive" == "active" then
      some ⟨p.plan.getD "premium", p.status.getD "active", p.plan_expires_at⟩
    else userPlanFromUser st e
  | none => userPlanFromUser st e

/-- `SubscriptionManager.get_plan` (lines 210-225), including the legacy
fallback that reads plan fields off the subscription document when
`user_manager.get_plan` returns a falsy value. -/
def subGetPlan (st : Store) (email : String) : Plan :=
  let e := normEmail email
  match userGetPlan st e with
  | some p => p
  | none =>
    match st.subs.find? (fun d => d.email == e) with
    | none => ⟨"free", "inactive", none⟩
    | some doc => ⟨doc.plan.getD "free", doc.plan_status.getD "inactive", doc.plan_expires_at⟩

/-- `SubscriptionManager._plan_allows_filtered` (lines 227-230); the Python
`if not plan` guard is dead here because `Plan` is a record, never `None`. -/
def planAllowsFiltered (p : Plan) : Bool :=
  p.plan == "premium" && p.plan_status == "active"

/-- The request body of `create_subscription` (`subscription_data`). -/
structure SubData where
  email : String
  subscriptionType : Option String
  selectedServices : List String
  selectedRegions : List String
  ip_queries : List String
  user_id : Option String
  deriving DecidableEq, Repr

/-- Result of `create_subscription`: the success dict carries the
non-sensitive summary (id, email, permanent token, reactivated flag; the
response timestamp string is omitted), errors carry message and code. -/
inductive CreateResult where
  | ok (id email token : String) (reactivated : Bool)
  | err (error : String) (code : Option String)
  deriving DecidableEq, Repr

/-- The premium gate of `create_subscription` (lines 72-105): `inl` is an
early error return, `inr uid` passes with the resolved user id. -/
def filteredGate (st : Store) (email : String) (auth : Option AuthUser)
    (uid0 : String) : Sum CreateResult (Option String) :=
  match auth with
  | none => .inl (.err "Login required for premium subscriptions" (some "AUTH_REQUIRED"))
  | some a =>
    let authEmail := normEmail (a.email.getD "")
    if authEmail ≠ "" ∧ authEmail ≠ email then
      .inl (.err "Email must match logged-in user" (some "EMAIL_MISMATCH"))
    else
      if !planAllowsFiltered (subGetPlan st email) then
        .inl (.err "Premium required for filtered subscriptions" (some "PREMIUM_REQUIRED"))
      else
        let uid := if uid0 = "" then pyOr a.sub a.user_id else some uid0
        if strFalsy uid then
          .inl (.err "User ID is required for premium subscriptions" (some "MISSING_USER_ID"))
        else .inr uid

/-- The brand-new document built at lines 148-168 (the analytics-only
`email_hash` field is omitted; `user_id` is the raw request value, line 156). -/
def newSubDoc (st : Store) (data : SubData) (email requested fid ftok : String)
    (now : Nat) : SubDoc where
  docId := st.nextDocId
  id := fid
  email := email
  subscriptionType := requested
  selectedServices := data.selectedServices
  selectedRegions := data.selectedRegions
  ipQueries := data.ip_queries
  user_id := data.user_id
  status := "active"
  unsubscribe_token := ftok
  plan := some "free"
  plan_status := some "inactive"
  plan_expires_at := none
  unsubscribe_verification_token := none
  verification_token_expiry := none
  unsubscribed_at := none
  unsubscribe_method := none
  resubscribed_at := none
  created_at := now
  updated_at := now

/-- The new-insert tail of `create_subscription` (lines 147-182);
`insert_one` always yields an `inserted_id`, so the success branch is taken. -/
def insertNew (st : Store) (data : SubData) (email requested fid ftok : String)
    (now : Nat) : CreateResult × Store :=
  (.ok fid email ftok false,
   { st with subs := st.subs ++ [newSubDoc st data email requested fid ftok now],
             nextDocId := st.nextDocId + 1 })

/-- The `$set`/`$unset` document of the reactivation update (lines 115-133). -/
def reactivateUpdate (data : SubData) (requested : String) (uidVar : Option String)
    (existing : SubDoc) (now : Nat) (d : SubDoc) : SubDoc :=
  { d with
    status := "active"
    subscriptionType := requested
    selectedServices := data.selectedServices
    selectedRegions := data.selectedRegions
    ipQueries := data.ip_queries
    user_id := pyOr uidVar existing.user_id
    updated_at := now
    resubscribed_at := some now
    unsubscribed_at := none
    unsubscribe_method := none }

/-- `SubscriptionManager.create_subscription` (lines 41-199): duplicate-email
check, premium gate for filtered requests, reactivation of an unsubscribed
document, else insertion of a new document. -/
def createSubscription (st : Store) (data : SubData) (auth : Option AuthUser)
    (fid ftok : String) (now : Nat) : CreateResult × Store :=
  let email := normEmail data.email
  let requested := data.subscriptionType.getD "all"
  let uid0 := pyStrip (data.user_id.getD "")
  if isEmailSubscribed st email then
    (.err "Email already subscribed" (some "DUPLICATE_EMAIL"), st)
  else
    match (if requested = "filtered" then filteredGate st email auth uid0
           else .inr (some uid0) : Sum CreateResult (Option String)) with
    | .inl r => (r, st)
    | .inr uidVar =>
      match st.subs.find? (fun d => d.email == email && d.status == "unsubscribed") with
      | some existing =>
        let upd := updateById st.subs existing.docId
          (reactivateUpdate data requested uidVar existing now)
        let st2 : Store := { st with subs := upd.1 }
        if upd.2 > 0 then
          (.ok existing.id existing.email existing.unsubscribe_token true, st2)
        else
          insertNew st2 data email requested fid ftok now
      | none => insertNew st data email requested fid ftok now

/-- Result shape shared by `unsubscribe` and `verify_and_unsubscribe`. -/
inductive UnsubResult where
  | ok (message : String)
  | err (error : String)
  deriving DecidableEq, Repr

/-- `SubscriptionManager.unsubscribe` (lines 246-300). -/
def unsubscribe (st : Store) (email token : String) (now : Nat) :
    UnsubResult × Store :=
  let e := normEmail email
  match st.subs.find? (fun d =>
      d.email == e && d.unsubscribe_token == token && d.status == "active") with
  | none => (.err "Invalid unsubscribe link or subscription not found", st)
  | some s =>
    let upd := updateById st.subs s.docId (fun d =>
      { d with status := "unsubscribed", unsubscribed_at := some now, updated_at := now })
    if upd.2 > 0 then (.ok "Successfully unsubscribed", { st with subs := upd.1 })
    else (.err "Failed to update subscription status", { st with subs := upd.1 })

/-- `SubscriptionManager.verify_and_unsubscribe` (lines 365-432). -/
def verifyAndUnsubscribe (st : Store) (email vtok : String) (now : Nat) :
    UnsubResult × Store :=
  let e := normEmail email
  match st.subs.find? (fun d =>
      d.email == e && d.unsubscribe_verification_token == some vtok
        && d.status == "active") with
  | none => (.err "Invalid or expired verification link", st)
  | some s =>
    let expired : Bool :=
      match s.verification_token_expiry with
      | some t => now > t
      | none => false
    if expired then
      (.err "Verification link has expired. Please request a new one.", st)
    else
      let upd := updateById st.subs s.docId (fun d =>
        { d with status := "unsubscribed", unsubscribed_at := some now,
                 updated_at := now, unsubscribe_method := some "email_verification",
                 unsubscribe_verification_token := none,
                 verification_token_expiry := none })
      if upd.2 > 0 then (.ok "Successfully unsubscribed", { st with subs := upd.1 })
      else (.err "Failed to unsubscribe", { st with subs := upd.1 })

/-! ### Token service (`auth_utils.py`)

A JWT is modelled as its decoded payload together with the secret it was
signed with; `jwt.decode(token, secret, ...)` succeeds exactly when the
signing secret matches (HMAC unforgeability) and the `exp` claim has not
passed (PyJWT rejects once `now ≥ exp`).  A syntactically invalid bearer
string is the `none` token. -/

/-- The payload of a purpose-bound action token (`create_action_token`). -/
structure ActionPayload where
  sub : String
  email : String
  purpose : String
  iat : Nat
  exp : Nat
  deriving DecidableEq, Repr

/-- A signed JWT: payload plus the secret that produced its signature. -/
structure SignedToken where
  payload : ActionPayload
  signedWith : String
  deriving DecidableEq, Repr

/-- `jwt.decode(token, secret, algorithms=[HS256])`: payload when the
signature verifies under `secret` and the token is unexpired, else `none`
(the Python exception, caught by every caller). -/
def jwtDecode (secret : String) (tok : SignedToken) (now : Nat) : Option ActionPayload :=
  if tok.signedWith = secret ∧ now < tok.payload.exp then some tok.payload else none

/-- `create_action_token` (lines 56-69, without `extra` claims): normalized
email as subject, purpose tag, expiry `now + ttl`. -/
def createActionToken (secret email purpose : String) (ttl now : Nat) : SignedToken :=
  ⟨⟨normEmail email, normEmail email, purpose, now, now + ttl⟩, secret⟩

/-- `verify_action_token` (lines 72-82): `None` on a missing token or unset
secret, on any decode failure, and on a purpose mismatch.  Total — the Python
`except` swallows every decoding exception. -/
def verifyActionToken (cfgSecret : Option String) (tok : Option SignedToken)
    (purpose : String) (now : Nat) : Option ActionPayload :=
  match cfgSecret, tok with
  | none, _ => none
  | _, none => none
  | some s, some t =>
    match jwtDecode s t now with
    | none => none
    | some p => if p.purpose ≠ purpose then none else some p

/-! ### `UserManager.authenticate` (`user_manager.py` lines 50-59)

bcrypt verification is an opaque boolean predicate `verify` over
(password, stored hash); `authenticate` is parametric in it. -/

/-- The `{"success": ..., "error": ...}` part of `authenticate`'s result. -/
structure AuthResult where
  success : Bool
  error : Option String
  deriving DecidableEq, Repr

/-- `UserManager.authenticate`: empty-input guard, user lookup by normalized
email, then password verification; the returned user rides in the second
component. -/
def authenticate (verify : String → String → Bool) (users : List UserDoc)
    (email password : String) : AuthResult × Option UserDoc :=
  let e := normEmail email
  if e = "" ∨ password = "" then
    (⟨false, some "Email and password are required"⟩, none)
  else
    match users.find? (fun u => u.email == e) with
    | none => (⟨false, some "Invalid credentials"⟩, none)
    | some u =>
      if verify password (u.password_hash.getD "") then (⟨true, none⟩, some u)
      else (⟨false, some "Invalid credentials"⟩, none)

/-! ### Notification dispatcher
(`scripts/send_notifications.py` lines 62-90 and
`email_service.py` `scoped_stats`, lines 244-261) -/

/-- One entry of the change payload's `changes` list. -/
structure ChangeItem where
  service : String
  region : Option String
  added_count : Option Nat
  removed_count : Option Nat
  added_prefixes : List String
  removed_prefixes : List String
  deriving DecidableEq, Repr

/-- The change payload: the `changes` list plus the optional
`regional_changes` breakdown attached from `summary.json`. -/
structure ChangePayload where
  changes : List ChangeItem
  regional_changes : Option (List (String × Nat))
  deriving DecidableEq, Repr

/-- `item.get('added_count', len(item.get('added_prefixes', [])))`. -/
def addedOf (it : ChangeItem) : Nat := it.added_count.getD it.added_prefixes.length

/-- `item.get('removed_count', len(item.get('removed_prefixes', [])))`. -/
def removedOf (it : ChangeItem) : Nat := it.removed_count.getD it.removed_prefixes.length

/-- The set of regions seen across `items` (a Python `set`, here a
first-occurrence-ordered dedup list; only its size is consumed). -/
def distinctRegions (items : List ChangeItem) : List String :=
  items.foldl (fun acc it =>
    match it.region with
    | some r => if r ∈ acc then acc else acc ++ [r]
    | none => acc) []

/-- `regions_from_summary` (email_service.py lines 148-153): count the truthy
entries of `regional_changes` when that dict is present, else the distinct
regions of the payload itself. -/
def regionsFromSummary (payload : ChangePayload) : Nat :=
  match payload.regional_changes with
  | some m => (m.filter (fun rc => rc.2 ≠ 0)).length
  | none => (distinctRegions payload.changes).length

/-- `scoped_stats(selected_services)` (email_service.py lines 244-261):
`(services_changed, regions, added, removed)`; an empty selection means an
all-services subscription and uses the payload-wide totals. -/
def scopedStats (selected : List String) (payload : ChangePayload) :
    Nat × Nat × Nat × Nat :=
  if selected = [] then
    (payload.changes.length, regionsFromSummary payload,
     (payload.changes.map addedOf).sum, (payload.changes.map removedOf).sum)
  else
    let matched := payload.changes.filter (fun it => it.service ∈ selected)
    (matched.length, (distinctRegions matched).length,
     (matched.map addedOf).sum, (matched.map removedOf).sum)

/-- One value of the `recipients` dict built by `send_notifications`. -/
structure Recipient where
  email : String
  subscriptionType : String
  selectedServices : List String
  deriving DecidableEq, Repr

/-- Python `recipients[key] = value` on a dict represented as an association
list keyed by `email`: overwrite the existing entry, else append. -/
def dictInsert (m : List Recipient) (r : Recipient) : List Recipient :=
  if m.any (fun x => x.email == r.email) then
    m.map (fun x => if x.email == r.email then r else x)
  else m ++ [r]

/-- `send_notifications` recipient collection (lines 62-90): all active
`type=all` subscribers, then active `type=filtered` subscribers whose
selection meets the changed services — the later, filtered pass overwrites
on email collision.  (`get_active_subscriptions` sorts by `created_at`; the
sort only permutes the lists and is omitted.) -/
def buildRecipients (subs : List SubDoc) (payload : ChangePayload) : List Recipient :=
  let changedServices := payload.changes.map (fun c => c.service)
  let allSubs := subs.filter (fun d => d.status == "active" && d.subscriptionType == "all")
  let filteredSubs := subs.filter (fun d => d.status == "active" && d.subscriptionType == "filtered")
  let r1 := allSubs.foldl (fun m sub => dictInsert m ⟨sub.email, "all", []⟩) []
  filteredSubs.foldl (fun m sub =>
    if sub.selectedServices.any (fun s => changedServices.contains s) then
      dictInsert m ⟨sub.email, "filtered", sub.selectedServices⟩
    else m) r1

/-! ### Operation sequences over the store (for the C1 invariant) -/

/-- One call against the subscription registry. -/
inductive Op where
  | create (data : SubData) (auth : Option AuthUser) (fid ftok : String) (now : Nat)
  | unsub (email token : String) (now : Nat)
  | verify (email vtok : String) (now : Nat)

/-- Apply one call, keeping only the store. -/
def applyOp (st : Store) : Op → Store
  | .create data auth fid ftok now => (createSubscription st data auth fid ftok now).2
  | .unsub email token now => (unsubscribe st email token now).2
  | .verify email vtok now => (verifyAndUnsubscribe st email vtok now).2

/-- Run a sequence of calls left to right. -/
def runOps (st : Store) (ops : List Op) : Store := ops.foldl applyOp st

/-- The active-subscription predicate for a fixed (normalized) email. -/
def activeFor (e : String) (d : SubDoc) : Bool :=
  d.email == e && d.status == "active"

/-- Number of `status="active"` documents carrying email `e`. -/
def countActive (subs : List SubDoc) (e : String) : Nat :=
  subs.countP (activeFor e)

/-- MongoDB's `_id`-uniqueness guarantee, plus freshness of the insert
counter. -/
def WF (st : Store) : Prop :=
  (st.subs.map (fun d => d.docId)).Nodup ∧ ∀ d ∈ st.subs, d.docId < st.nextDocId

/-- The document inserted by a first, fresh `create_subscription` call
(round-trip scenario shorthand). -/
def rtDoc (st0 : Store) (d1 : SubData) (fid1 ftok1 : String) (n1 : Nat) : SubDoc :=
  newSubDoc st0 d1 (normEmail d1.email) (d1.subscriptionType.getD "all") fid1 ftok1 n1

/-- That document after the `unsubscribe` step of the round trip. -/
def rtDocUnsub (st0 : Store) (d1 : SubData) (fid1 ftok1 : String) (n1 n2 : Nat) : SubDoc :=
  { rtDoc st0 d1 fid1 ftok1 n1 with
    status := "unsubscribed"
    unsubscribed_at := some n2
    updated_at := n2 }

/-! ## Theorems -/

/-- Claim C4: `verify_action_token(token, expected_purpose)` returns a payload
only when the token's signature verifies under the configured secret, the
token is not past its expiry instant, and the payload purpose equals
`expected_purpose` exactly; on a bad signature, a token past expiry, or a
purpose mismatch it returns `none` (the embedding is total, mirroring the
catch-all `except`, so it never raises); in particular a token minted by
`create_action_token` for purpose `"upgrade"` never verifies for `"signup"`,
for any email and any times. -/
theorem verify_action_token_spec (s : String) (t : SignedToken) (purpose : String)
    (now : Nat) :
    (∀ p, verifyActionToken (some s) (some t) purpose now = some p →
      t.signedWith = s ∧ now ≤ t.payload.exp ∧ p.purpose = purpose ∧ p = t.payload)
    ∧ ((t.signedWith ≠ s ∨ t.payload.exp < now ∨ t.payload.purpose ≠ purpose) →
      verifyActionToken (some s) (some t) purpose now = none)
    ∧ (∀ email ttl n₁ n₂, verifyActionToken (some s)
        (some (createActionToken s email "upgrade" ttl n₁)) "signup" n₂ = none) := by
  refine ⟨?_, ?_, ?_⟩
  · intro p h
    by_cases hc : t.signedWith = s ∧ now < t.payload.exp
    · simp only [verifyActionToken, jwtDecode, if_pos hc] at h
      by_cases hp : t.payload.purpose = purpose
      · simp only [hp, ne_eq, not_true_eq_false, if_neg, ite_false, Option.some.injEq] at h
        subst h
        exact ⟨hc.1, Nat.le_of_lt hc.2, hp, rfl⟩
      · simp [hp] at h
    · simp [verifyActionToken, jwtDecode, if_neg hc] at h
  · intro h
    rcases h with h | h | h
    · simp [verifyActionToken, jwtDecode, h]
    · have : ¬ (t.signedWith = s ∧ now < t.payload.exp) := by
        rintro ⟨_, h2⟩; omega
      simp [verifyActionToken, jwtDecode, if_neg this]
    · by_cases hc : t.signedWith = s ∧ now < t.payload.exp
      · simp [verifyActionToken, jwtDecode, if_pos hc, h]
      · simp [verifyActionToken, jwtDecode, if_neg hc]
  · intro email ttl n₁ n₂
    by_cases hc : n₂ < n₁ + ttl
    · simp [verifyActionToken, jwtDecode, createActionToken, hc]
    · simp [verifyActionToken, jwtDecode, createActionToken, hc]

/-- Witness for C4: an `"upgrade"` action token presented for `"signup"`, and
an expired token with the right purpose, both verify to `none`. -/
theorem verify_action_token_spec_witness :
    verifyActionToken (some "sec")
      (some (createActionToken "sec" "a@x.com" "upgrade" 15 0)) "signup" 5 = none
    ∧ verifyActionToken (some "sec")
      (some (createActionToken "sec" "b@x.com" "signup" 15 0)) "signup" 20 = none :=
  ⟨(verify_action_token_spec "sec" (createActionToken "sec" "a@x.com" "upgrade" 15 0)
      "signup" 5).2.2 "a@x.com" 15 0 5,
   (verify_action_token_spec "sec" (createActionToken "sec" "b@x.com" "signup" 15 0)
      "signup" 20).2.1 (Or.inr (Or.inl (by decide)))⟩

/-- Claim C5: `verify_and_unsubscribe` fails with the distinct Expired error
when an active subscription matches the verification token but its stored
expiry lies before `now` — leaving the store (hence the still-active
document) completely unmodified — while a token matching no active
subscription fails with the different Invalid error. -/
theorem verify_and_unsubscribe_expired_distinct (st : Store) (email vtok : String)
    (now : Nat) :
    (∀ s, st.subs.find? (fun d => d.email == normEmail email
          && d.unsubscribe_verification_token == some vtok && d.status == "active")
        = some s →
      ∀ t, s.verification_token_expiry = some t → t < now →
        verifyAndUnsubscribe st email vtok now
          = (.err "Verification link has expired. Please request a new one.", st)
        ∧ s ∈ st.subs ∧ s.status = "active")
    ∧ (st.subs.find? (fun d => d.email == normEmail email
          && d.unsubscribe_verification_token == some vtok && d.status == "active")
        = none →
      verifyAndUnsubscribe st email vtok now
        = (.err "Invalid or expired verification link", st))
    ∧ (UnsubResult.err "Verification link has expired. Please request a new one."
        ≠ UnsubResult.err "Invalid or expired verification link") := by
  refine ⟨?_, ?_, by decide⟩
  · intro s hfind t hexp hlt
    have hmem := List.mem_of_find?_eq_some hfind
    have hpred := List.find?_some hfind
    simp only [Bool.and_eq_true, beq_iff_eq] at hpred
    refine ⟨?_, hmem, hpred.2⟩
    simp [verifyAndUnsubscribe, hfind, hexp, Nat.lt_iff_add_one_le.mp hlt, hlt]
  · intro hfind
    simp [verifyAndUnsubscribe, hfind]

/-- Witness for C5: a store whose single active subscription holds a pending
verification token that expired at tick 10 rejects that token at tick 11 with
the Expired error and is left unchanged. -/
theorem verify_and_unsubscribe_expired_distinct_witness :
    verifyAndUnsubscribe
      ⟨[⟨0, "s1", "a@x.com", "all", [], [], [], none, "active", "ptok",
         none, none, none, some "vtok", some 10, none, none, none, 0, 0⟩], [], [], 1⟩
      "a@x.com" "vtok" 11
      = (.err "Verification link has expired. Please request a new one.",
         ⟨[⟨0, "s1", "a@x.com", "all", [], [], [], none, "active", "ptok",
            none, none, none, some "vtok", some 10, none, none, none, 0, 0⟩], [], [], 1⟩) :=
  ((verify_and_unsubscribe_expired_distinct
      ⟨[⟨0, "s1", "a@x.com", "all", [], [], [], none, "active", "ptok",
         none, none, none, some "vtok", some 10, none, none, none, 0, 0⟩], [], [], 1⟩
      "a@x.com" "vtok" 11).1
    ⟨0, "s1", "a@x.com", "all", [], [], [], none, "active", "ptok",
      none, none, none, some "vtok", some 10, none, none, none, 0, 0⟩
    (by decide) 10 rfl (by decide)).1

/-- Claim C6: for every email that is non-empty once normalized and every
non-empty password, `authenticate` returns the literally identical failure
value (`success=False`, error `"Invalid credentials"`, no user) whether no
user document exists for the normalized email or a user exists but password
verification fails — no user-enumeration signal.  (The code's emptiness guard
tests the normalized email, so "non-empty email" is read as non-empty after
normalization.) -/
theorem authenticate_uniform_failure (verify : String → String → Bool)
    (users : List UserDoc) (email password : String)
    (he : normEmail email ≠ "") (hp : password ≠ "") :
    (users.find? (fun u => u.email == normEmail email) = none →
      authenticate verify users email password
        = (⟨false, some "Invalid credentials"⟩, none))
    ∧ (∀ u, users.find? (fun u => u.email == normEmail email) = some u →
      verify password (u.password_hash.getD "") = false →
      authenticate verify users email password
        = (⟨false, some "Invalid credentials"⟩, none)) := by
  constructor
  · intro hfind
    simp [authenticate, he, hp, hfind]
  · intro u hfind hverify
    simp [authenticate, he, hp, hfind, hverify]

/-- Witness for C6: with a bcrypt stand-in that rejects everything, an unknown
email and a known email with a wrong password produce the same value. -/
theorem authenticate_uniform_failure_witness :
    authenticate (fun _ _ => false) [⟨"a@x.com", some "h", none, none, none⟩]
      "b@x.com" "pw" = (⟨false, some "Invalid credentials"⟩, none)
    ∧ authenticate (fun _ _ => false) [⟨"a@x.com", some "h", none, none, none⟩]
      "a@x.com" "pw" = (⟨false, some "Invalid credentials"⟩, none) :=
  ⟨(authenticate_uniform_failure (fun _ _ => false)
      [⟨"a@x.com", some "h", none, none, none⟩] "b@x.com" "pw"
      (by decide) (by decide)).1 (by decide),
   (authenticate_uniform_failure (fun _ _ => false)
      [⟨"a@x.com", some "h", none, none, none⟩] "a@x.com" "pw"
      (by decide) (by decide)).2 ⟨"a@x.com", some "h", none, none, none⟩
      (by decide) rfl⟩

/-- Claim C10: `SubscriptionManager.get_plan(email)` returns exactly
`UserManager.get_plan` of the normalized email, for every store: the user
registry's result is always a (truthy, non-`None`) plan record, so the legacy
fallback reading plan fields off the subscriptions collection is
unreachable. -/
theorem sub_get_plan_eq_user_get_plan (st : Store) (email : String) :
    userGetPlan st (normEmail email) = some (subGetPlan st email)
    ∧ ∀ e, (userGetPlan st e).isSome = true := by
  have hsome : ∀ e, (userGetPlan st e).isSome = true := by
    intro e
    unfold userGetPlan userPlanFromUser
    cases hp : st.premiums.find? (fun p => p.email == normEmail e) <;>
      cases hu : st.users.find? (fun u => u.email == normEmail e) <;>
      simp [hp, hu] <;> split <;> simp
  refine ⟨?_, hsome⟩
  have h := hsome (normEmail email)
  unfold subGetPlan
  cases hg : userGetPlan st (normEmail email) with
  | none => rw [hg] at h; simp at h
  | some p => simp [hg]

/-- Counterexample to C2 as stated.  First input: a filtered request for
`a@x.com` against an empty store, with an authenticated identity carrying no
email claim (and a user id) — the identity's email (normalized `""`) differs
from the request email, so the claim predicts `EMAIL_MISMATCH`, but the code
skips the email check and returns `PREMIUM_REQUIRED`.  Second input: a
filtered request with no authenticated identity while an active subscription
already exists for the email — the claim predicts `AUTH_REQUIRED`, but the
duplicate check runs first and the code returns `DUPLICATE_EMAIL`. -/
theorem filtered_gate_claim_counterexample :
    ((createSubscription ⟨[], [], [], 0⟩ ⟨"a@x.com", some "filtered", [], [], [], none⟩
        (some ⟨none, some "user-1", none⟩) "fid" "ftok" 0).1
      = .err "Premium required for filtered subscriptions" (some "PREMIUM_REQUIRED"))
    ∧ ((createSubscription ⟨[], [], [], 0⟩ ⟨"a@x.com", some "filtered", [], [], [], none⟩
        (some ⟨none, some "user-1", none⟩) "fid" "ftok" 0).1
      ≠ .err "Email must match logged-in user" (some "EMAIL_MISMATCH"))
    ∧ ((createSubscription ⟨[⟨0, "s1", "a@x.com", "all", [], [], [], none, "active", "ptok",
          none, none, none, none, none, none, none, none, 0, 0⟩], [], [], 1⟩
        ⟨"a@x.com", some "filtered", [], [], [], none⟩ none "fid" "ftok" 0).1
      = .err "Email already subscribed" (some "DUPLICATE_EMAIL")) := by
  refine ⟨by decide, by decide, by decide⟩

/-- Claim C2 as amended: provided no active subscription already exists for
the request email (otherwise `DUPLICATE_EMAIL` takes precedence), a
`subscriptionType="filtered"` request is rejected, with the store unmodified:
`AUTH_REQUIRED` when no authenticated identity is supplied; `EMAIL_MISMATCH`
when the identity carries a non-empty email claim differing from the request
email; `PREMIUM_REQUIRED` when the email check passes but the resolved plan
is not premium+active; `MISSING_USER_ID` when additionally no user id is
resolvable from the request or the identity. -/
theorem filtered_gate_errors (st : Store) (data : SubData) (auth : Option AuthUser)
    (fid ftok : String) (now : Nat)
    (hreq : data.subscriptionType.getD "all" = "filtered")
    (hdup : isEmailSubscribed st (normEmail data.email) = false) :
    (auth = none → createSubscription st data auth fid ftok now
        = (.err "Login required for premium subscriptions" (some "AUTH_REQUIRED"), st))
    ∧ (∀ a, auth = some a →
        normEmail (a.email.getD "") ≠ "" →
        normEmail (a.email.getD "") ≠ normEmail data.email →
        createSubscription st data auth fid ftok now
          = (.err "Email must match logged-in user" (some "EMAIL_MISMATCH"), st))
    ∧ (∀ a, auth = some a →
        (normEmail (a.email.getD "") = ""
          ∨ normEmail (a.email.getD "") = normEmail data.email) →
        planAllowsFiltered (subGetPlan st (normEmail data.email)) = false →
        createSubscription st data auth fid ftok now
          = (.err "Premium required for filtered subscriptions" (some "PREMIUM_REQUIRED"), st))
    ∧ (∀ a, auth = some a →
        (normEmail (a.email.getD "") = ""
          ∨ normEmail (a.email.getD "") = normEmail data.email) →
        planAllowsFiltered (subGetPlan st (normEmail data.email)) = true →
        strFalsy (if pyStrip (data.user_id.getD "") = "" then pyOr a.sub a.user_id
                  else some (pyStrip (data.user_id.getD ""))) = true →
        createSubscription st data auth fid ftok now
          = (.err "User ID is required for premium subscriptions" (some "MISSING_USER_ID"), st)) := by
  have hmm : ∀ a : AuthUser,
      (normEmail (a.email.getD "") = ""
        ∨ normEmail (a.email.getD "") = normEmail data.email) →
      ¬ (normEmail (a.email.getD "") ≠ ""
        ∧ normEmail (a.email.getD "") ≠ normEmail data.email) := by
    rintro a (h | h) ⟨h1, h2⟩ <;> exact absurd h (by assumption)
  refine ⟨?_, ?_, ?_, ?_⟩
  · rintro rfl
    simp [createSubscription, hreq, hdup, filteredGate]
  · rintro a rfl hne hmis
    simp [createSubscription, hreq, hdup, filteredGate, if_pos (And.intro hne hmis)]
  · rintro a rfl hem hplan
    simp [createSubscription, hreq, hdup, filteredGate, if_neg (hmm a hem), hplan]
  · rintro a rfl hem hplan huid
    simp [createSubscription, hreq, hdup, filteredGate, if_neg (hmm a hem), hplan, huid]

/-- Witness for the amended C2: a filtered request with no bearer identity
against an empty store is rejected with `AUTH_REQUIRED` and no write. -/
theorem filtered_gate_errors_witness :
    createSubscription ⟨[], [], [], 0⟩ ⟨"a@x.com", some "filtered", [], [], [], none⟩
      none "fid" "ftok" 3
      = (.err "Login required for premium subscriptions" (some "AUTH_REQUIRED"),
         ⟨[], [], [], 0⟩) :=
  (filtered_gate_errors ⟨[], [], [], 0⟩ ⟨"a@x.com", some "filtered", [], [], [], none⟩
      none "fid" "ftok" 3 (by decide) (by decide)).1 rfl

/-- Claim C8 (implicit): in a filtered `create_subscription` request, the
email-match check fires only for identities carrying a non-empty email claim:
with an authenticated identity whose email claim is missing or empty,
`EMAIL_MISMATCH` is impossible for every store and request, and (absent a
duplicate) the request proceeds to the plan check on the request's own
email — failing with `PREMIUM_REQUIRED` there when the plan is not
premium+active, whatever the request email is. -/
theorem empty_auth_email_no_mismatch (st : Store) (data : SubData) (a : AuthUser)
    (fid ftok : String) (now : Nat)
    (hreq : data.subscriptionType.getD "all" = "filtered")
    (hae : normEmail (a.email.getD "") = "") :
    ((createSubscription st data (some a) fid ftok now).1
      ≠ .err "Email must match logged-in user" (some "EMAIL_MISMATCH"))
    ∧ (isEmailSubscribed st (normEmail data.email) = false →
      planAllowsFiltered (subGetPlan st (normEmail data.email)) = false →
      createSubscription st data (some a) fid ftok now
        = (.err "Premium required for filtered subscriptions" (some "PREMIUM_REQUIRED"), st)) := by
  have hnm : ¬ (normEmail (a.email.getD "") ≠ ""
      ∧ normEmail (a.email.getD "") ≠ normEmail data.email) := by
    rintro ⟨h1, _⟩; exact h1 hae
  constructor
  · by_cases hdup : isEmailSubscribed st (normEmail data.email) = true
    · simp [createSubscription, hreq, hdup]
    · by_cases hplan : planAllowsFiltered (subGetPlan st (normEmail data.email)) = true
      · by_cases huid : strFalsy (if pyStrip (data.user_id.getD "") = ""
            then pyOr a.sub a.user_id else some (pyStrip (data.user_id.getD ""))) = true
        · simp [createSubscription, hreq, hdup, filteredGate, if_neg hnm, hplan, huid]
        · cases hf : st.subs.find? (fun d =>
              d.email == normEmail data.email && d.status == "unsubscribed") with
          | none =>
            simp [createSubscription, hreq, hdup, filteredGate, if_neg hnm, hplan,
              huid, hf, insertNew]
          | some ex =>
            simp [createSubscription, hreq, hdup, filteredGate, if_neg hnm,
              hplan, huid, hf] <;> split <;> split <;> simp [insertNew]
      · simp [createSubscription, hreq, hdup, filteredGate, if_neg hnm, hplan]
  · intro hdup hplan
    simp [createSubscription, hreq, hdup, filteredGate, if_neg hnm, hplan]

/-- Witness for C8: identity with no email claim, request email `a@x.com`,
empty store — no mismatch error; instead the free default plan fails the
premium check. -/
theorem empty_auth_email_no_mismatch_witness :
    ((createSubscription ⟨[], [], [], 0⟩ ⟨"a@x.com", some "filtered", [], [], [], none⟩
        (some ⟨none, some "user-1", none⟩) "fid" "ftok" 0).1
      ≠ .err "Email must match logged-in user" (some "EMAIL_MISMATCH"))
    ∧ createSubscription ⟨[], [], [], 0⟩ ⟨"a@x.com", some "filtered", [], [], [], none⟩
        (some ⟨none, some "user-1", none⟩) "fid" "ftok" 0
      = (.err "Premium required for filtered subscriptions" (some "PREMIUM_REQUIRED"),
         ⟨[], [], [], 0⟩) :=
  ⟨(empty_auth_email_no_mismatch ⟨[], [], [], 0⟩
      ⟨"a@x.com", some "filtered", [], [], [], none⟩ ⟨none, some "user-1", none⟩
      "fid" "ftok" 0 (by decide) (by decide)).1,
   (empty_auth_email_no_mismatch ⟨[], [], [], 0⟩
      ⟨"a@x.com", some "filtered", [], [], [], none⟩ ⟨none, some "user-1", none⟩
      "fid" "ftok" 0 (by decide) (by decide)).2 (by decide) (by decide)⟩

/-- Claim C9 (implicit): when a filtered `create_subscription` call takes the
brand-new-insert path (no unsubscribed document for the email) and the
request body carries no `user_id`, the inserted document's `user_id` field is
`None` — the id resolved from the authenticated identity (which satisfied the
`MISSING_USER_ID` check) is not written on the insert path. -/
theorem insert_path_user_id_none (st : Store) (data : SubData) (a : AuthUser)
    (fid ftok : String) (now : Nat)
    (hreq : data.subscriptionType.getD "all" = "filtered")
    (huid : data.user_id = none)
    (hdup : isEmailSubscribed st (normEmail data.email) = false)
    (hae : normEmail (a.email.getD "") = ""
      ∨ normEmail (a.email.getD "") = normEmail data.email)
    (hplan : planAllowsFiltered (subGetPlan st (normEmail data.email)) = true)
    (hres : strFalsy (pyOr a.sub a.user_id) = false)
    (hnoun : st.subs.find? (fun d =>
        d.email == normEmail data.email && d.status == "unsubscribed") = none) :
    createSubscription st data (some a) fid ftok now
      = (.ok fid (normEmail data.email) ftok false,
         { st with
             subs := st.subs
               ++ [newSubDoc st data (normEmail data.email) "filtered" fid ftok now],
             nextDocId := st.nextDocId + 1 })
    ∧ (newSubDoc st data (normEmail data.email) "filtered" fid ftok now).user_id
        = none := by
  have hnm : ¬ (normEmail (a.email.getD "") ≠ ""
      ∧ normEmail (a.email.getD "") ≠ normEmail data.email) := by
    rcases hae with h | h
    · rintro ⟨h1, _⟩; exact h1 h
    · rintro ⟨_, h2⟩; exact h2 h
  have hstrip : pyStrip "" = "" := by decide
  constructor
  · simp [createSubscription, hreq, hdup, filteredGate, if_neg hnm, hplan, huid,
      hstrip, hres, hnoun, insertNew]
  · simp [newSubDoc, huid]

/-- Witness for C9: a premium user's filtered request with no body `user_id`
against a store holding only their premium entitlement inserts a document
whose `user_id` is `None`. -/
theorem insert_path_user_id_none_witness :
    createSubscription
        ⟨[], [], [⟨"a@x.com", some "premium", some "active", none⟩], 0⟩
        ⟨"a@x.com", some "filtered", ["Storage"], [], [], none⟩
        (some ⟨some "a@x.com", some "user-1", none⟩) "fid" "ftok" 7
      = (.ok "fid" "a@x.com" "ftok" false,
         ⟨[newSubDoc ⟨[], [], [⟨"a@x.com", some "premium", some "active", none⟩], 0⟩
            ⟨"a@x.com", some "filtered", ["Storage"], [], [], none⟩
            "a@x.com" "filtered" "fid" "ftok" 7],
          [], [⟨"a@x.com", some "premium", some "active", none⟩], 1⟩)
    ∧ (newSubDoc ⟨[], [], [⟨"a@x.com", some "premium", some "active", none⟩], 0⟩
        ⟨"a@x.com", some "filtered", ["Storage"], [], [], none⟩
        "a@x.com" "filtered" "fid" "ftok" 7).user_id = none :=
  insert_path_user_id_none
    ⟨[], [], [⟨"a@x.com", some "premium", some "active", none⟩], 0⟩
    ⟨"a@x.com", some "filtered", ["Storage"], [], [], none⟩
    ⟨some "a@x.com", some "user-1", none⟩ "fid" "ftok" 7
    (by decide) rfl (by decide) (by decide) (by decide) (by decide) (by decide)

/-- Every element of `dictInsert m r` is `r` itself or an element of `m`. -/
theorem mem_dictInsert (m : List Recipient) (r x : Recipient)
    (hx : x ∈ dictInsert m r) : x = r ∨ x ∈ m := by
  unfold dictInsert at hx
  split at hx
  case isTrue h =>
    rcases List.mem_map.mp hx with ⟨y, hy, hxy⟩
    by_cases hye : y.email == r.email
    · left; rw [← hxy, if_pos hye]
    · right; rw [← hxy, if_neg hye]; exact hy
  case isFalse h =>
    rcases List.mem_append.mp hx with h1 | h1
    · right; exact h1
    · left; simpa using h1

/-- The emails present after a dict insert are those before plus the
inserted key. -/
theorem hasEmail_dictInsert (m : List Recipient) (r : Recipient) (e : String) :
    (∃ x ∈ dictInsert m r, x.email = e) ↔ (∃ x ∈ m, x.email = e) ∨ r.email = e := by
  constructor
  · rintro ⟨x, hx, hex⟩
    rcases mem_dictInsert m r x hx with rfl | hxm
    · right; exact hex
    · left; exact ⟨x, hxm, hex⟩
  · rintro (⟨x, hxm, hex⟩ | her)
    · unfold dictInsert
      split
      case isTrue h =>
        by_cases hxe : x.email == r.email
        · refine ⟨r, List.mem_map.mpr ⟨x, hxm, by rw [if_pos hxe]⟩, ?_⟩
          have hxr : x.email = r.email := by simpa using hxe
          rw [← hxr]; exact hex
        · exact ⟨x, List.mem_map.mpr ⟨x, hxm, by rw [if_neg hxe]⟩, hex⟩
      case isFalse h => exact ⟨x, List.mem_append.mpr (Or.inl hxm), hex⟩
    · unfold dictInsert
      split
      case isTrue h =>
        rcases List.any_eq_true.mp h with ⟨y, hy, hye⟩
        exact ⟨r, List.mem_map.mpr ⟨y, hy, by rw [if_pos hye]⟩, her⟩
      case isFalse h =>
        exact ⟨r, List.mem_append.mpr (Or.inr (List.mem_singleton.mpr rfl)), her⟩

/-- After a dict insert, the (unique) entry under the inserted key is the
inserted value. -/
theorem dictInsert_lookup (m : List Recipient) (r x : Recipient)
    (hx : x ∈ dictInsert m r) (he : x.email = r.email) : x = r := by
  unfold dictInsert at hx
  split at hx
  case isTrue h =>
    rcases List.mem_map.mp hx with ⟨y, hy, hxy⟩
    by_cases hye : y.email == r.email
    · rw [← hxy, if_pos hye]
    · rw [if_neg hye] at hxy
      subst hxy
      exact absurd (beq_iff_eq.mpr he) hye
  case isFalse h =>
    rcases List.mem_append.mp hx with h1 | h1
    · refine absurd ?_ h
      exact List.any_eq_true.mpr ⟨x, h1, beq_iff_eq.mpr he⟩
    · simpa using h1

/-- Emails present after the unconditional insert pass (the `type=all`
loop of `send_notifications`). -/
theorem hasEmail_foldAll (f : SubDoc → Recipient) (l : List SubDoc)
    (m0 : List Recipient) (e : String) :
    (∃ x ∈ l.foldl (fun m sub => dictInsert m (f sub)) m0, x.email = e)
      ↔ (∃ x ∈ m0, x.email = e) ∨ ∃ d ∈ l, (f d).email = e := by
  induction l generalizing m0 with
  | nil => simp
  | cons d rest ih =>
    simp only [List.foldl_cons]
    rw [ih, hasEmail_dictInsert]
    simp only [List.mem_cons]
    constructor
    · rintro ((h | h) | h)
      · exact Or.inl h
      · exact Or.inr ⟨d, Or.inl rfl, h⟩
      · rcases h with ⟨d', hd', he'⟩
        exact Or.inr ⟨d', Or.inr hd', he'⟩
    · rintro (h | ⟨d', (rfl | hd'), he'⟩)
      · exact Or.inl (Or.inl h)
      · exact Or.inl (Or.inr he')
      · exact Or.inr ⟨d', hd', he'⟩

/-- Emails present after the conditional insert pass (the `type=filtered`
loop of `send_notifications`). -/
theorem hasEmail_foldCond (c : SubDoc → Bool) (f : SubDoc → Recipient)
    (l : List SubDoc) (m0 : List Recipient) (e : String) :
    (∃ x ∈ l.foldl (fun m sub => if c sub then dictInsert m (f sub) else m) m0,
        x.email = e)
      ↔ (∃ x ∈ m0, x.email = e) ∨ ∃ d ∈ l, c d = true ∧ (f d).email = e := by
  induction l generalizing m0 with
  | nil => simp
  | cons d rest ih =>
    simp only [List.foldl_cons]
    by_cases hc : c d
    · rw [if_pos hc, ih, hasEmail_dictInsert]
      simp only [List.mem_cons]
      constructor
      · rintro ((h | h) | ⟨d', hd', hc', he'⟩)
        · exact Or.inl h
        · exact Or.inr ⟨d, Or.inl rfl, hc, h⟩
        · exact Or.inr ⟨d', Or.inr hd', hc', he'⟩
      · rintro (h | ⟨d', (rfl | hd'), hc', he'⟩)
        · exact Or.inl (Or.inl h)
        · exact Or.inl (Or.inr he')
        · exact Or.inr ⟨d', hd', hc', he'⟩
    · rw [if_neg hc, ih]
      simp only [List.mem_cons]
      constructor
      · rintro (h | ⟨d', hd', hc', he'⟩)
        · exact Or.inl h
        · exact Or.inr ⟨d', Or.inr hd', hc', he'⟩
      · rintro (h | ⟨d', (rfl | hd'), hc', he'⟩)
        · exact Or.inl h
        · exact absurd hc' hc
        · exact Or.inr ⟨d', hd', hc', he'⟩

/-- A pointwise property of the entries under key `e`, holding of every value
the conditional pass may insert there, survives the pass. -/
theorem lookup_foldCond_preserve (c : SubDoc → Bool) (f : SubDoc → Recipient)
    (e : String) (P : Recipient → Prop) (hP : ∀ d, (f d).email = e → P (f d)) :
    ∀ (l : List SubDoc) (m0 : List Recipient), (∀ x ∈ m0, x.email = e → P x) →
      ∀ x ∈ l.foldl (fun m sub => if c sub then dictInsert m (f sub) else m) m0,
        x.email = e → P x := by
  intro l
  induction l with
  | nil => intro m0 hm x hx hex; exact hm x hx hex
  | cons d rest ih =>
    intro m0 hm
    simp only [List.foldl_cons]
    by_cases hc : c d
    · rw [if_pos hc]
      refine ih (dictInsert m0 (f d)) ?_
      intro x hx hex
      rcases mem_dictInsert m0 (f d) x hx with rfl | hxm
      · exact hP d hex
      · exact hm x hxm hex
    · rw [if_neg hc]
      exact ih m0 hm

/-- Once the conditional pass actually inserts under key `e`, every entry at
`e` in the final dict satisfies the inserted-value property. -/
theorem lookup_foldCond (c : SubDoc → Bool) (f : SubDoc → Recipient)
    (e : String) (P : Recipient → Prop) (hP : ∀ d, (f d).email = e → P (f d)) :
    ∀ (l : List SubDoc) (m0 : List Recipient),
      (∃ d ∈ l, c d = true ∧ (f d).email = e) →
      ∀ x ∈ l.foldl (fun m sub => if c sub then dictInsert m (f sub) else m) m0,
        x.email = e → P x := by
  intro l
  induction l with
  | nil => rintro m0 ⟨d, hd, _⟩; exact absurd hd (List.not_mem_nil d)
  | cons d rest ih =>
    intro m0 hex
    simp only [List.foldl_cons]
    by_cases hc : c d
    · rw [if_pos hc]
      by_cases hrest : ∃ d' ∈ rest, c d' = true ∧ (f d').email = e
      · exact ih _ hrest
      · have hfd : (f d).email = e := by
          rcases hex with ⟨d', hd', hcd', he'⟩
          rcases List.mem_cons.mp hd' with rfl | hmem
          · exact he'
          · exact absurd ⟨d', hmem, hcd', he'⟩ hrest
        refine lookup_foldCond_preserve c f e P hP rest (dictInsert m0 (f d)) ?_
        intro x hx hex'
        have hx' := dictInsert_lookup m0 (f d) x hx (hex'.trans hfd.symm)
        rw [hx']
        exact hP d hfd
    · rw [if_neg hc]
      refine ih m0 ?_
      rcases hex with ⟨d', hd', hcd', he'⟩
      rcases List.mem_cons.mp hd' with rfl | hmem
      · exact absurd hcd' hc
      · exact ⟨d', hmem, hcd', he'⟩

/-- Claim C7: the notification recipient set is exactly the union of the
active `type=all` subscribers and those active `type=filtered` subscribers
whose selected services meet the payload's changed services (an empty
selection never matches, the intersection being empty); an email matching
both keeps the filtered context; and the scoped statistics are deterministic
aggregations — on the payload
`changes=[{service:"Storage", region:"eastus", added_count:3}]`, an `all`
subscriber and a filtered subscriber selecting `["Storage"]` both get
`(services_changed, regions, added, removed) = (1, 1, 3, 0)`, while a
filtered subscriber selecting `["Compute"]` receives nothing. -/
theorem notification_recipients_spec (subs : List SubDoc) (payload : ChangePayload) :
    (∀ e, (∃ r ∈ buildRecipients subs payload, r.email = e) ↔
      ((∃ d ∈ subs, d.status = "active" ∧ d.subscriptionType = "all" ∧ d.email = e)
        ∨ (∃ d ∈ subs, d.status = "active" ∧ d.subscriptionType = "filtered"
            ∧ d.email = e
            ∧ ∃ s ∈ d.selectedServices, s ∈ payload.changes.map (fun c => c.service))))
    ∧ (∀ e, (∃ d ∈ subs, d.status = "active" ∧ d.subscriptionType = "filtered"
          ∧ d.email = e
          ∧ ∃ s ∈ d.selectedServices, s ∈ payload.changes.map (fun c => c.service)) →
        ∀ r ∈ buildRecipients subs payload, r.email = e →
          r.subscriptionType = "filtered")
    ∧ (buildRecipients
        [⟨0, "s1", "all@x.com", "all", [], [], [], none, "active", "t1",
          none, none, none, none, none, none, none, none, 0, 0⟩,
         ⟨1, "s2", "f@x.com", "filtered", ["Storage"], [], [], none, "active", "t2",
          none, none, none, none, none, none, none, none, 0, 0⟩,
         ⟨2, "s3", "c@x.com", "filtered", ["Compute"], [], [], none, "active", "t3",
          none, none, none, none, none, none, none, none, 0, 0⟩]
        ⟨[⟨"Storage", some "eastus", some 3, none, [], []⟩], none⟩
        = [⟨"all@x.com", "all", []⟩, ⟨"f@x.com", "filtered", ["Storage"]⟩]
      ∧ scopedStats [] ⟨[⟨"Storage", some "eastus", some 3, none, [], []⟩], none⟩
          = (1, 1, 3, 0)
      ∧ scopedStats ["Storage"] ⟨[⟨"Storage", some "eastus", some 3, none, [], []⟩], none⟩
          = (1, 1, 3, 0)) := by
  have hmatch : ∀ (d : SubDoc),
      (d.selectedServices.any (fun s =>
        (payload.changes.map (fun c => c.service)).contains s)) = true
      ↔ ∃ s ∈ d.selectedServices, s ∈ payload.changes.map (fun c => c.service) := by
    intro d; simp
  refine ⟨?_, ?_, by decide, by decide, by decide⟩
  · intro e
    unfold buildRecipients
    rw [hasEmail_foldCond, hasEmail_foldAll]
    simp only [List.mem_filter, List.not_mem_nil, false_and, exists_false,
      Bool.and_eq_true, beq_iff_eq, false_or]
    constructor
    · rintro (⟨d, ⟨hd, hst, hty⟩, he⟩ | ⟨d, ⟨hd, hst, hty⟩, hc, he⟩)
      · exact Or.inl ⟨d, hd, hst, hty, he⟩
      · exact Or.inr ⟨d, hd, hst, hty, he, (hmatch d).mp hc⟩
    · rintro (⟨d, hd, hst, hty, he⟩ | ⟨d, hd, hst, hty, he, hs⟩)
      · exact Or.inl ⟨d, ⟨hd, hst, hty⟩, he⟩
      · exact Or.inr ⟨d, ⟨hd, hst, hty⟩, (hmatch d).mpr hs, he⟩
  · intro e hex
    unfold buildRecipients
    refine lookup_foldCond _ _ e (fun r => r.subscriptionType = "filtered")
      (fun d _ => rfl) _ _ ?_
    rcases hex with ⟨d, hd, hst, hty, he, hs⟩
    refine ⟨d, ?_, (hmatch d).mpr hs, he⟩
    simp only [List.mem_filter, Bool.and_eq_true, beq_iff_eq]
    exact ⟨hd, hst, hty⟩

/-- Witness for C7: on the example payload and the three example subscribers,
`all@x.com` is a recipient, `c@x.com` (selection `["Compute"]`) is not, and
every recipient entry for `f@x.com` carries the filtered context. -/
theorem notification_recipients_spec_witness :
    (∃ r ∈ buildRecipients
        [⟨0, "s1", "all@x.com", "all", [], [], [], none, "active", "t1",
          none, none, none, none, none, none, none, none, 0, 0⟩,
         ⟨1, "s2", "f@x.com", "filtered", ["Storage"], [], [], none, "active", "t2",
          none, none, none, none, none, none, none, none, 0, 0⟩,
         ⟨2, "s3", "c@x.com", "filtered", ["Compute"], [], [], none, "active", "t3",
          none, none, none, none, none, none, none, none, 0, 0⟩]
        ⟨[⟨"Storage", some "eastus", some 3, none, [], []⟩], none⟩,
      r.email = "all@x.com")
    ∧ ¬ (∃ r ∈ buildRecipients
        [⟨0, "s1", "all@x.com", "all", [], [], [], none, "active", "t1",
          none, none, none, none, none, none, none, none, 0, 0⟩,
         ⟨1, "s2", "f@x.com", "filtered", ["Storage"], [], [], none, "active", "t2",
          none, none, none, none, none, none, none, none, 0, 0⟩,
         ⟨2, "s3", "c@x.com", "filtered", ["Compute"], [], [], none, "active", "t3",
          none, none, none, none, none, none, none, none, 0, 0⟩]
        ⟨[⟨"Storage", some "eastus", some 3, none, [], []⟩], none⟩,
      r.email = "c@x.com") := by
  have h := notification_recipients_spec
    [⟨0, "s1", "all@x.com", "all", [], [], [], none, "active", "t1",
      none, none, none, none, none, none, none, none, 0, 0⟩,
     ⟨1, "s2", "f@x.com", "filtered", ["Storage"], [], [], none, "active", "t2",
      none, none, none, none, none, none, none, none, 0, 0⟩,
     ⟨2, "s3", "c@x.com", "filtered", ["Compute"], [], [], none, "active", "t3",
      none, none, none, none, none, none, none, none, 0, 0⟩]
    ⟨[⟨"Storage", some "eastus", some 3, none, [], []⟩], none⟩
  constructor
  · refine (h.1 "all@x.com").mpr (Or.inl ?_)
    refine ⟨⟨0, "s1", "all@x.com", "all", [], [], [], none, "active", "t1",
      none, none, none, none, none, none, none, none, 0, 0⟩, ?_, rfl, rfl, rfl⟩
    exact List.mem_cons_self _ _
  · intro hc
    rcases (h.1 "c@x.com").mp hc with hcase | hcase
    · revert hcase; decide
    · revert hcase; decide

/-! ### Email normalization is idempotent
(`lower().strip()` applied twice is `lower().strip()` — the code routinely
re-normalizes already-normalized emails across nested calls). -/

/-- ASCII lowercasing is idempotent. -/
theorem toLower_toLower (c : Char) : c.toLower.toLower = c.toLower := by
  by_cases h : c.toNat ≥ 65 ∧ c.toNat ≤ 90
  · have hc : Char.ofNat c.toNat = c := Char.ofNat_toNat c
    obtain ⟨h1, h2⟩ := h
    set n := c.toNat with hn
    rw [← hc]
    interval_cases n <;> decide
  · unfold Char.toLower
    rw [if_neg h, if_neg h]

/-- Lowercasing neither creates nor destroys whitespace. -/
theorem isWhitespace_toLower (c : Char) : c.toLower.isWhitespace = c.isWhitespace := by
  by_cases h : c.toNat ≥ 65 ∧ c.toNat ≤ 90
  · have hc : Char.ofNat c.toNat = c := Char.ofNat_toNat c
    obtain ⟨h1, h2⟩ := h
    set n := c.toNat with hn
    rw [← hc]
    interval_cases n <;> decide
  · unfold Char.toLower
    rw [if_neg h]

/-- `dropWhile` is idempotent. -/
theorem dropWhile_idem (p : α → Bool) (l : List α) :
    (l.dropWhile p).dropWhile p = l.dropWhile p := by
  cases hc : l.dropWhile p with
  | nil => rfl
  | cons a t =>
    have h0 := List.head?_dropWhile_not p l
    rw [hc] at h0
    have h1 : p a = false := h0
    exact List.dropWhile_cons_of_neg (by simp [h1])

/-- Stripping is idempotent. -/
theorem stripL_idem (l : List Char) : stripL (stripL l) = stripL l := by
  have hA : (stripL l).dropWhile Char.isWhitespace = stripL l := by
    cases hc : stripL l with
    | nil => rfl
    | cons a t =>
      have hpre : stripL l <+: l.dropWhile Char.isWhitespace := by
        unfold stripL
        conv_rhs => rw [← List.reverse_reverse (l.dropWhile Char.isWhitespace)]
        exact List.reverse_prefix.mpr (List.dropWhile_suffix _)
      rcases hpre with ⟨t2, ht2⟩
      rw [hc] at ht2
      have h0 := List.head?_dropWhile_not Char.isWhitespace l
      rw [← ht2] at h0
      have h1 : Char.isWhitespace a = false := h0
      exact List.dropWhile_cons_of_neg (by simp [h1])
  have hB : (stripL l).reverse.dropWhile Char.isWhitespace = (stripL l).reverse := by
    unfold stripL
    rw [List.reverse_reverse]
    exact dropWhile_idem _ _
  show (((stripL l).dropWhile Char.isWhitespace).reverse.dropWhile
      Char.isWhitespace).reverse = stripL l
  rw [hA, hB, List.reverse_reverse]

/-- Stripping commutes with lowercasing on character lists. -/
theorem stripL_map_toLower (l : List Char) :
    stripL (l.map Char.toLower) = (stripL l).map Char.toLower := by
  have hws : (Char.isWhitespace ∘ Char.toLower) = Char.isWhitespace := by
    funext c; exact isWhitespace_toLower c
  unfold stripL
  rw [List.dropWhile_map, hws, ← List.map_reverse, List.dropWhile_map, hws,
    ← List.map_reverse]

/-- Lowercasing a string is idempotent. -/
theorem pyLower_pyLower (s : String) : pyLower (pyLower s) = pyLower s := by
  unfold pyLower
  refine congrArg String.mk ?_
  show (s.data.map Char.toLower).map Char.toLower = s.data.map Char.toLower
  rw [List.map_map]
  exact List.map_congr_left (fun c _ => toLower_toLower c)

/-- `lower().strip()` is idempotent. -/
theorem normEmail_idem (s : String) : normEmail (normEmail s) = normEmail s := by
  have hcomm : ∀ t : String, pyLower (pyStrip t) = pyStrip (pyLower t) := by
    intro t
    unfold pyLower pyStrip
    exact congrArg String.mk (stripL_map_toLower t.data).symm
  unfold normEmail
  rw [hcomm (pyLower s), pyLower_pyLower]
  show pyStrip (pyStrip (pyLower s)) = pyStrip (pyLower s)
  unfold pyStrip
  exact congrArg String.mk (stripL_idem _)

/-! ### `updateById` structure lemmas -/

/-- With distinct `_id`s, updating by `_id` is a pointwise map that touches
only the matching document. -/
theorem updateById_fst_of_nodup (subs : List SubDoc) (i : Nat) (f : SubDoc → SubDoc)
    (h : (subs.map (fun d => d.docId)).Nodup) :
    (updateById subs i f).1 = subs.map (fun d => if d.docId = i then f d else d) := by
  induction subs with
  | nil => rfl
  | cons d rest ih =>
    simp only [List.map_cons, List.nodup_cons] at h
    by_cases hd : d.docId = i
    · have h2 : updateById (d :: rest) i f = (f d :: rest, 1) := by
        simp only [updateById]; rw [if_pos hd]
      rw [h2, List.map_cons, if_pos hd]
      have h3 : ∀ x ∈ rest, (if x.docId = i then f x else x) = x := by
        intro x hx
        rw [if_neg]
        intro hxi
        have hmem : x.docId ∈ rest.map (fun d => d.docId) :=
          List.mem_map_of_mem _ hx
        rw [hxi, ← hd] at hmem
        exact h.1 hmem
      have h4 : rest.map (fun x => if x.docId = i then f x else x) = rest :=
        (List.map_congr_left h3).trans (List.map_id rest)
      rw [h4]
    · have h2 : updateById (d :: rest) i f
          = (d :: (updateById rest i f).1, (updateById rest i f).2) := by
        simp only [updateById]; rw [if_neg hd]
      rw [h2, List.map_cons, if_neg hd]
      show d :: (updateById rest i f).1 = d :: _
      rw [ih h.2]

/-- Updating the `_id` of a member document always modifies (count 1). -/
theorem updateById_snd_of_mem (subs : List SubDoc) (x : SubDoc) (f : SubDoc → SubDoc)
    (hx : x ∈ subs) : (updateById subs x.docId f).2 = 1 := by
  induction subs with
  | nil => exact absurd hx (List.not_mem_nil x)
  | cons d rest ih =>
    by_cases hd : d.docId = x.docId
    · simp only [updateById]; rw [if_pos hd]
    · have h2 : updateById (d :: rest) x.docId f
          = (d :: (updateById rest x.docId f).1, (updateById rest x.docId f).2) := by
        simp only [updateById]; rw [if_neg hd]
      rw [h2]
      rcases List.mem_cons.mp hx with rfl | hmem
      · exact absurd rfl hd
      · exact ih hmem

/-- An `_id`-preserving update leaves the `_id` sequence unchanged. -/
theorem updateById_map_docId (subs : List SubDoc) (i : Nat) (f : SubDoc → SubDoc)
    (hf : ∀ d, (f d).docId = d.docId) :
    (updateById subs i f).1.map (fun d => d.docId) = subs.map (fun d => d.docId) := by
  induction subs with
  | nil => rfl
  | cons d rest ih =>
    by_cases hd : d.docId = i
    · have h2 : updateById (d :: rest) i f = (f d :: rest, 1) := by
        simp only [updateById]; rw [if_pos hd]
      rw [h2, List.map_cons, List.map_cons, hf]
    · have h2 : updateById (d :: rest) i f
          = (d :: (updateById rest i f).1, (updateById rest i f).2) := by
        simp only [updateById]; rw [if_neg hd]
      rw [h2, List.map_cons, List.map_cons, ih]

/-- An update whose result never satisfies `p` cannot increase the `p`-count. -/
theorem countP_updateById_le (subs : List SubDoc) (i : Nat) (f : SubDoc → SubDoc)
    (p : SubDoc → Bool) (hf : ∀ d, p (f d) = false) :
    (updateById subs i f).1.countP p ≤ subs.countP p := by
  induction subs with
  | nil => exact Nat.le_refl _
  | cons d rest ih =>
    by_cases hd : d.docId = i
    · have h2 : updateById (d :: rest) i f = (f d :: rest, 1) := by
        simp only [updateById]; rw [if_pos hd]
      rw [h2]
      show (f d :: rest).countP p ≤ (d :: rest).countP p
      rw [List.countP_cons, List.countP_cons, hf]
      have h5 : (if (false = true) then 1 else 0) = 0 := rfl
      rw [h5]
      split <;> omega
    · have h2 : updateById (d :: rest) i f
          = (d :: (updateById rest i f).1, (updateById rest i f).2) := by
        simp only [updateById]; rw [if_neg hd]
      rw [h2]
      show (d :: (updateById rest i f).1).countP p ≤ (d :: rest).countP p
      rw [List.countP_cons, List.countP_cons]
      have := ih
      split <;> omega

/-- At most one document carries a given `_id` when `_id`s are distinct. -/
theorem countP_docId_le_one (subs : List SubDoc) (i : Nat)
    (h : (subs.map (fun d => d.docId)).Nodup) :
    subs.countP (fun d => d.docId == i) ≤ 1 := by
  induction subs with
  | nil => simp
  | cons d rest ih =>
    simp only [List.map_cons, List.nodup_cons] at h
    rw [List.countP_cons]
    by_cases hd : d.docId = i
    · have hz : rest.countP (fun d => d.docId == i) = 0 := by
        rw [List.countP_eq_zero]
        intro a ha
        simp only [beq_iff_eq]
        intro hai
        have : a.docId ∈ rest.map (fun d => d.docId) := List.mem_map_of_mem _ ha
        rw [hai, ← hd] at this
        exact h.1 this
      simp [hz, hd]
    · have := ih h.2
      simp only [beq_iff_eq, hd, if_false]
      omega

/-! ### Store-shape characterizations of the three write operations -/

/-- `create_subscription` either leaves the store unchanged (duplicate or a
premium-gate rejection), reactivates one document in place, or appends one
brand-new active document. -/
theorem createSubscription_shape (st : Store) (data : SubData) (auth : Option AuthUser)
    (fid ftok : String) (now : Nat) :
    (createSubscription st data auth fid ftok now).2 = st
    ∨ (isEmailSubscribed st (normEmail data.email) = false
        ∧ ∃ (existing : SubDoc) (uidVar : Option String) (requested : String),
          st.subs.find? (fun d => d.email == normEmail data.email
            && d.status == "unsubscribed") = some existing
          ∧ (createSubscription st data auth fid ftok now).2
            = { st with subs := (updateById st.subs existing.docId
                (reactivateUpdate data requested uidVar existing now)).1 })
    ∨ (isEmailSubscribed st (normEmail data.email) = false
        ∧ ∃ requested : String,
          (createSubscription st data auth fid ftok now).2
            = { st with
                subs := st.subs ++ [newSubDoc st data (normEmail data.email)
                  requested fid ftok now],
                nextDocId := st.nextDocId + 1 }) := by
  by_cases hdup : isEmailSubscribed st (normEmail data.email) = true
  · left; simp [createSubscription, hdup]
  · have hdup2 : isEmailSubscribed st (normEmail data.email) = false := by
      simpa using hdup
    cases hg : (if data.subscriptionType.getD "all" = "filtered"
        then filteredGate st (normEmail data.email) auth (pyStrip (data.user_id.getD ""))
        else Sum.inr (some (pyStrip (data.user_id.getD "")))) with
    | inl r => left; simp [createSubscription, hdup2, hg]
    | inr uidVar =>
      cases hf : st.subs.find? (fun d => d.email == normEmail data.email
          && d.status == "unsubscribed") with
      | some existing =>
        right; left
        refine ⟨hdup2, existing, uidVar, data.subscriptionType.getD "all", rfl, ?_⟩
        have hmem := List.mem_of_find?_eq_some hf
        have hmod := updateById_snd_of_mem st.subs existing
          (reactivateUpdate data (data.subscriptionType.getD "all") uidVar existing now) hmem
        simp [createSubscription, hdup2, hg, hf, hmod]
      | none =>
        right; right
        refine ⟨hdup2, data.subscriptionType.getD "all", ?_⟩
        simp [createSubscription, hdup2, hg, hf, insertNew]

/-- `unsubscribe` leaves the store unchanged or flips one document to
`unsubscribed`. -/
theorem unsubscribe_shape (st : Store) (email token : String) (now : Nat) :
    (unsubscribe st email token now).2 = st
    ∨ ∃ s0 : SubDoc, (unsubscribe st email token now).2
        = { st with
            subs := (updateById st.subs s0.docId (fun d =>
              { d with status := "unsubscribed", unsubscribed_at := some now,
                       updated_at := now })).1 } := by
  cases hf : st.subs.find? (fun d => d.email == normEmail email
      && d.unsubscribe_token == token && d.status == "active") with
  | none => left; simp [unsubscribe, hf]
  | some s0 =>
    right
    refine ⟨s0, ?_⟩
    simp only [unsubscribe, hf]
    split <;> rfl

/-- `verify_and_unsubscribe` leaves the store unchanged or flips one document
to `unsubscribed`. -/
theorem verifyAndUnsubscribe_shape (st : Store) (email vtok : String) (now : Nat) :
    (verifyAndUnsubscribe st email vtok now).2 = st
    ∨ ∃ s0 : SubDoc, (verifyAndUnsubscribe st email vtok now).2
        = { st with
            subs := (updateById st.subs s0.docId (fun d =>
              { d with status := "unsubscribed", unsubscribed_at := some now,
                       updated_at := now, unsubscribe_method := some "email_verification",
                       unsubscribe_verification_token := none,
                       verification_token_expiry := none })).1 } := by
  cases hf : st.subs.find? (fun d => d.email == normEmail email
      && d.unsubscribe_verification_token == some vtok && d.status == "active") with
  | none => left; simp [verifyAndUnsubscribe, hf]
  | some s0 =>
    simp only [verifyAndUnsubscribe, hf]
    split
    · left; rfl
    · right
      refine ⟨s0, ?_⟩
      split <;> rfl

/-! ### Invariant preservation -/

/-- An `_id`-preserving update preserves store well-formedness. -/
theorem WF_updateById (st : Store) (i : Nat) (f : SubDoc → SubDoc)
    (hid : ∀ d, (f d).docId = d.docId) (hWF : WF st) :
    WF { st with subs := (updateById st.subs i f).1 } := by
  constructor
  · show ((updateById st.subs i f).1.map (fun d => d.docId)).Nodup
    rw [updateById_map_docId _ _ _ hid]
    exact hWF.1
  · intro d hd
    have hdm : d.docId ∈ (updateById st.subs i f).1.map (fun d => d.docId) :=
      List.mem_map_of_mem _ hd
    rw [updateById_map_docId _ _ _ hid] at hdm
    rcases List.mem_map.mp hdm with ⟨d0, hd0, hdd⟩
    show d.docId < st.nextDocId
    rw [← hdd]
    exact hWF.2 d0 hd0

/-- No document is active for `e` when `is_email_subscribed` came back false
(the query re-normalizes, hence the idempotence rewrite). -/
theorem countActive_eq_zero_of_not_subscribed (st : Store) (em : String)
    (h : isEmailSubscribed st em = false) :
    countActive st.subs (normEmail em) = 0 := by
  have h2 : (st.subs.find? (fun d => d.email == normEmail em
      && d.status == "active")).isSome = false := h
  cases hf : st.subs.find? (fun d => d.email == normEmail em
      && d.status == "active") with
  | some d => rw [hf] at h2; simp at h2
  | none =>
    unfold countActive
    rw [List.countP_eq_zero]
    intro d hd
    exact List.find?_eq_none.mp hf d hd

/-- `create_subscription` preserves well-formedness and the at-most-one-active
bound for every email. -/
theorem createSubscription_preserves (st : Store) (data : SubData)
    (auth : Option AuthUser) (fid ftok : String) (now : Nat) (e : String)
    (hWF : WF st) (hcnt : countActive st.subs e ≤ 1) :
    WF (createSubscription st data auth fid ftok now).2
    ∧ countActive (createSubscription st data auth fid ftok now).2.subs e ≤ 1 := by
  rcases createSubscription_shape st data auth fid ftok now with
    hsh | ⟨hdup, existing, uidVar, requested, hf, hsh⟩ | ⟨hdup, requested, hsh⟩
  · rw [hsh]; exact ⟨hWF, hcnt⟩
  · have hzero : countActive st.subs (normEmail data.email) = 0 := by
      have h0 := countActive_eq_zero_of_not_subscribed st (normEmail data.email) hdup
      rwa [normEmail_idem] at h0
    have hpred := List.find?_some hf
    simp only [Bool.and_eq_true, beq_iff_eq] at hpred
    have hid : ∀ d, (reactivateUpdate data requested uidVar existing now d).docId
        = d.docId := fun d => rfl
    have hupd := updateById_fst_of_nodup st.subs existing.docId
      (reactivateUpdate data requested uidVar existing now) hWF.1
    rw [hsh]
    refine ⟨WF_updateById st _ _ hid hWF, ?_⟩
    show countActive (updateById st.subs existing.docId
      (reactivateUpdate data requested uidVar existing now)).1 e ≤ 1
    unfold countActive
    rw [hupd, List.countP_map]
    by_cases hee : normEmail data.email = e
    · subst hee
      calc st.subs.countP ((activeFor (normEmail data.email)) ∘ fun d =>
            if d.docId = existing.docId
            then reactivateUpdate data requested uidVar existing now d else d)
          ≤ st.subs.countP (fun d => d.docId == existing.docId) := by
            apply List.countP_mono_left
            intro d hd hpd
            simp only [Function.comp] at hpd
            by_cases hdi : d.docId = existing.docId
            · simp [hdi]
            · rw [if_neg hdi] at hpd
              exact absurd hpd (List.countP_eq_zero.mp hzero d hd)
        _ ≤ 1 := countP_docId_le_one st.subs existing.docId hWF.1
    · have hcong : st.subs.countP ((activeFor e) ∘ fun d =>
          if d.docId = existing.docId
          then reactivateUpdate data requested uidVar existing now d else d)
          = st.subs.countP (activeFor e) := by
        apply List.countP_congr
        intro d hd
        by_cases hdi : d.docId = existing.docId
        · have hde : d = existing :=
            List.inj_on_of_nodup_map hWF.1 hd (List.mem_of_find?_eq_some hf) hdi
          subst hde
          simp only [Function.comp, if_pos hdi]
          unfold activeFor reactivateUpdate
          simp [hpred.1, hpred.2, hee]
        · simp [Function.comp, if_neg hdi]
      rw [hcong]
      exact hcnt
  · have hzero : countActive st.subs (normEmail data.email) = 0 := by
      have h0 := countActive_eq_zero_of_not_subscribed st (normEmail data.email) hdup
      rwa [normEmail_idem] at h0
    rw [hsh]
    constructor
    · constructor
      · show ((st.subs ++ [newSubDoc st data (normEmail data.email) requested fid
            ftok now]).map (fun d => d.docId)).Nodup
        rw [List.map_append]
        refine List.Nodup.append hWF.1 (List.nodup_singleton _) ?_
        intro a ha hb
        rcases List.mem_map.mp ha with ⟨d0, hd0, hdd⟩
        have hlt := hWF.2 d0 hd0
        have hab : a = st.nextDocId := by simpa [newSubDoc] using hb
        rw [← hdd] at hab
        omega
      · intro d hd
        show d.docId < st.nextDocId + 1
        rcases List.mem_append.mp hd with h1 | h1
        · have := hWF.2 d h1; omega
        · have : d = newSubDoc st data (normEmail data.email) requested fid ftok now := by
            simpa using h1
          rw [this]
          show st.nextDocId < st.nextDocId + 1
          omega
    · show countActive (st.subs ++ [newSubDoc st data (normEmail data.email)
        requested fid ftok now]) e ≤ 1
      unfold countActive
      rw [List.countP_append]
      by_cases hee : normEmail data.email = e
      · subst hee
        have h1 : ([newSubDoc st data (normEmail data.email) requested fid
            ftok now].countP (activeFor (normEmail data.email))) ≤ 1 := by
          rw [List.countP_cons, List.countP_nil]
          split <;> omega
        unfold countActive at hzero
        omega
      · have h1 : ([newSubDoc st data (normEmail data.email) requested fid
            ftok now].countP (activeFor e)) = 0 := by
          rw [List.countP_cons, List.countP_nil]
          have : activeFor e (newSubDoc st data (normEmail data.email) requested
              fid ftok now) = false := by
            unfold activeFor newSubDoc
            simp [hee]
          simp [this]
        unfold countActive at hcnt
        omega

/-- Every call of the subscription registry preserves well-formedness and the
at-most-one-active bound for every email. -/
theorem applyOp_preserves (e : String) (st : Store) (op : Op)
    (h : WF st ∧ countActive st.subs e ≤ 1) :
    WF (applyOp st op) ∧ countActive (applyOp st op).subs e ≤ 1 := by
  obtain ⟨hWF, hcnt⟩ := h
  cases op with
  | create data auth fid ftok now =>
    exact createSubscription_preserves st data auth fid ftok now e hWF hcnt
  | unsub email token now =>
    show WF (unsubscribe st email token now).2
      ∧ countActive (unsubscribe st email token now).2.subs e ≤ 1
    rcases unsubscribe_shape st email token now with hsh | ⟨s0, hsh⟩
    · rw [hsh]; exact ⟨hWF, hcnt⟩
    · rw [hsh]
      refine ⟨WF_updateById st _ _ (fun d => rfl) hWF, ?_⟩
      show countActive (updateById st.subs s0.docId _).1 e ≤ 1
      unfold countActive
      refine le_trans (countP_updateById_le _ _ _ _ ?_) hcnt
      intro d
      unfold activeFor
      simp
  | verify email vtok now =>
    show WF (verifyAndUnsubscribe st email vtok now).2
      ∧ countActive (verifyAndUnsubscribe st email vtok now).2.subs e ≤ 1
    rcases verifyAndUnsubscribe_shape st email vtok now with hsh | ⟨s0, hsh⟩
    · rw [hsh]; exact ⟨hWF, hcnt⟩
    · rw [hsh]
      refine ⟨WF_updateById st _ _ (fun d => rfl) hWF, ?_⟩
      show countActive (updateById st.subs s0.docId _).1 e ≤ 1
      unfold countActive
      refine le_trans (countP_updateById_le _ _ _ _ ?_) hcnt
      intro d
      unfold activeFor
      simp

/-- The invariant survives any sequence of calls. -/
theorem runOps_preserves (e : String) (ops : List Op) (st : Store)
    (h : WF st ∧ countActive st.subs e ≤ 1) :
    WF (runOps st ops) ∧ countActive (runOps st ops).subs e ≤ 1 := by
  induction ops generalizing st with
  | nil => exact h
  | cons op rest ih =>
    show WF (runOps (applyOp st op) rest)
      ∧ countActive (runOps (applyOp st op) rest).subs e ≤ 1
    exact ih (applyOp st op) (applyOp_preserves e st op h)

/-- Claim C1: from a well-formed store (MongoDB guarantees distinct `_id`s;
the insert counter is fresh) holding no subscription document at all for
email `e`, any sequence of `create_subscription`, `unsubscribe`, and
`verify_and_unsubscribe` calls leaves at most one `status="active"` document
for `e`; every prefix of a sequence being a sequence, the bound holds at
every intermediate time.  Moreover `create_subscription` rejects with
`DUPLICATE_EMAIL`, writing nothing, whenever an active document already
exists for the request email. -/
theorem single_active_subscription_invariant (st0 : Store) (e : String)
    (ops : List Op) (hWF : WF st0) (hnone : ∀ d ∈ st0.subs, d.email ≠ e) :
    countActive (runOps st0 ops).subs e ≤ 1
    ∧ ∀ (st : Store) (data : SubData) (auth : Option AuthUser)
        (fid ftok : String) (now : Nat),
        isEmailSubscribed st (normEmail data.email) = true →
        createSubscription st data auth fid ftok now
          = (.err "Email already subscribed" (some "DUPLICATE_EMAIL"), st) := by
  constructor
  · have hstart : WF st0 ∧ countActive st0.subs e ≤ 1 := by
      refine ⟨hWF, ?_⟩
      have hz : countActive st0.subs e = 0 := by
        unfold countActive
        rw [List.countP_eq_zero]
        intro d hd
        simp [activeFor, hnone d hd]
      omega
    exact (runOps_preserves e ops st0 hstart).2
  · intro st data auth fid ftok now hdup
    simp [createSubscription, hdup]

/-- Witness for C1: the empty store, the email `a@x.com`, and the sequence
subscribe, subscribe again (rejected as duplicate), unsubscribe. -/
theorem single_active_subscription_invariant_witness :
    countActive (runOps ⟨[], [], [], 0⟩
      [.create ⟨"a@x.com", none, [], [], [], none⟩ none "id1" "tok1" 1,
       .create ⟨"a@x.com", none, [], [], [], none⟩ none "id2" "tok2" 2,
       .unsub "a@x.com" "tok1" 3]).subs "a@x.com" ≤ 1 :=
  (single_active_subscription_invariant ⟨[], [], [], 0⟩ "a@x.com"
    [.create ⟨"a@x.com", none, [], [], [], none⟩ none "id1" "tok1" 1,
     .create ⟨"a@x.com", none, [], [], [], none⟩ none "id2" "tok2" 2,
     .unsub "a@x.com" "tok1" 3]
    (by constructor <;> decide) (by decide)).1

/-! ### Helpers for the reactivation round trip -/

/-- The premium gate only ever early-returns an error value. -/
theorem filteredGate_inl_err (st : Store) (email : String) (auth : Option AuthUser)
    (uid0 : String) (r : CreateResult) (h : filteredGate st email auth uid0 = .inl r) :
    ∃ msg code, r = .err msg code := by
  rcases auth with _ | a
  · unfold filteredGate at h
    injection h with h2
    exact ⟨_, _, h2.symm⟩
  · have h2 : (if normEmail (a.email.getD "") ≠ "" ∧ normEmail (a.email.getD "") ≠ email then
        (Sum.inl (CreateResult.err "Email must match logged-in user"
          (some "EMAIL_MISMATCH")) : Sum CreateResult (Option String))
      else if !planAllowsFiltered (subGetPlan st email) then
        Sum.inl (CreateResult.err "Premium required for filtered subscriptions"
          (some "PREMIUM_REQUIRED"))
      else if strFalsy (if uid0 = "" then pyOr a.sub a.user_id else some uid0) = true then
        Sum.inl (CreateResult.err "User ID is required for premium subscriptions"
          (some "MISSING_USER_ID"))
      else Sum.inr (if uid0 = "" then pyOr a.sub a.user_id else some uid0))
      = Sum.inl r := h
    repeat' split at h2
    all_goals
      first
        | (injection h2 with h3; exact ⟨_, _, h3.symm⟩)
        | exact absurd h2 (by simp)

/-- `find?` skips a block in which nothing matches. -/
theorem find?_append_of_none (p : SubDoc → Bool) (l1 l2 : List SubDoc)
    (h : ∀ a ∈ l1, p a = false) : (l1 ++ l2).find? p = l2.find? p := by
  induction l1 with
  | nil => rfl
  | cons a t ih =>
    have ha : p a = false := h a (List.mem_cons_self a t)
    rw [List.cons_append, List.find?_cons_of_neg _ (by simp [ha])]
    exact ih (fun b hb => h b (List.mem_cons_of_mem a hb))

/-- `updateById` skips a block in which no `_id` matches. -/
theorem updateById_append_of_ne (l1 l2 : List SubDoc) (i : Nat) (f : SubDoc → SubDoc)
    (h : ∀ d ∈ l1, d.docId ≠ i) :
    updateById (l1 ++ l2) i f = (l1 ++ (updateById l2 i f).1, (updateById l2 i f).2) := by
  induction l1 with
  | nil => rfl
  | cons a t ih =>
    have ha : a.docId ≠ i := h a (List.mem_cons_self a t)
    rw [List.cons_append]
    simp only [updateById]
    rw [if_neg ha, ih (fun b hb => h b (List.mem_cons_of_mem a hb))]
    rfl

/-- Claim C3: round-trip reactivation.  From a well-formed store holding no
document for the email, a successful `create_subscription`, then
`unsubscribe` with the returned permanent token (which provably succeeds),
then any successful `create_subscription` for the same email yields the same
subscription id and the same permanent unsubscribe token as the first call,
flagged as a reactivation — the unsubscribed document is reused in place, not
duplicated. -/
theorem create_unsubscribe_create_roundtrip
    (st0 : Store) (d1 d3 : SubData) (auth1 auth3 : Option AuthUser)
    (fid1 ftok1 fid3 ftok3 : String) (n1 n2 n3 : Nat)
    (i1 em1 t1 : String) (re1 : Bool) (i3 em3 t3 : String) (re3 : Bool)
    (hWF : WF st0)
    (hno : ∀ d ∈ st0.subs, d.email ≠ normEmail d1.email)
    (hem : normEmail d3.email = normEmail d1.email)
    (h1 : (createSubscription st0 d1 auth1 fid1 ftok1 n1).1 = .ok i1 em1 t1 re1)
    (h3 : (createSubscription
        (unsubscribe (createSubscription st0 d1 auth1 fid1 ftok1 n1).2 d1.email t1 n2).2
        d3 auth3 fid3 ftok3 n3).1 = .ok i3 em3 t3 re3) :
    (unsubscribe (createSubscription st0 d1 auth1 fid1 ftok1 n1).2 d1.email t1 n2).1
      = .ok "Successfully unsubscribed"
    ∧ i3 = i1 ∧ t3 = t1 ∧ re3 = true := by
  have hdup1 : isEmailSubscribed st0 (normEmail d1.email) = false := by
    have hf : st0.subs.find? (fun d => d.email == normEmail (normEmail d1.email)
        && d.status == "active") = none := by
      rw [List.find?_eq_none]
      intro d hd
      simp [normEmail_idem, hno d hd]
    show (st0.subs.find? (fun d => d.email == normEmail (normEmail d1.email)
        && d.status == "active")).isSome = false
    rw [hf]
    rfl
  cases hg1 : (if d1.subscriptionType.getD "all" = "filtered"
      then filteredGate st0 (normEmail d1.email) auth1 (pyStrip (d1.user_id.getD ""))
      else Sum.inr (some (pyStrip (d1.user_id.getD "")))) with
  | inl r =>
    exfalso
    have h1r : r = CreateResult.ok i1 em1 t1 re1 := by
      simpa [createSubscription, hdup1, hg1] using h1
    by_cases hreq : d1.subscriptionType.getD "all" = "filtered"
    · rw [if_pos hreq] at hg1
      rcases filteredGate_inl_err _ _ _ _ _ hg1 with ⟨msg, code, hr⟩
      rw [hr] at h1r
      exact absurd h1r (by simp)
    · rw [if_neg hreq] at hg1
      exact absurd hg1 (by simp)
  | inr uidVar1 =>
    have hfu1 : st0.subs.find? (fun d => d.email == normEmail d1.email
        && d.status == "unsubscribed") = none := by
      rw [List.find?_eq_none]
      intro d hd
      simp [hno d hd]
    have hc1 : createSubscription st0 d1 auth1 fid1 ftok1 n1
        = (.ok fid1 (normEmail d1.email) ftok1 false,
           { st0 with
             subs := st0.subs ++ [rtDoc st0 d1 fid1 ftok1 n1],
             nextDocId := st0.nextDocId + 1 }) := by
      simp [createSubscription, hdup1, hg1, hfu1, insertNew, rtDoc]
    replace h1 : CreateResult.ok fid1 (normEmail d1.email) ftok1 false
        = CreateResult.ok i1 em1 t1 re1 := by
      rw [hc1] at h1
      exact h1
    injection h1 with hi1 hem1 ht1 hre1
    have hold2 : ∀ a ∈ st0.subs, (a.email == normEmail d1.email
        && a.unsubscribe_token == t1 && a.status == "active") = false := by
      intro a ha
      have h5 : (a.email == normEmail d1.email) = false := by
        simpa using hno a ha
      simp [h5]
    have hNp : ((rtDoc st0 d1 fid1 ftok1 n1).email == normEmail d1.email
        && (rtDoc st0 d1 fid1 ftok1 n1).unsubscribe_token == t1
        && (rtDoc st0 d1 fid1 ftok1 n1).status == "active") = true := by
      simp [rtDoc, newSubDoc, ← ht1]
    have hfind2 : (st0.subs ++ [rtDoc st0 d1 fid1 ftok1 n1]).find?
        (fun d => d.email == normEmail d1.email && d.unsubscribe_token == t1
          && d.status == "active")
        = some (rtDoc st0 d1 fid1 ftok1 n1) := by
      rw [find?_append_of_none _ _ _ hold2]
      exact List.find?_cons_of_pos _ hNp
    have hids : ∀ d ∈ st0.subs, d.docId ≠ (rtDoc st0 d1 fid1 ftok1 n1).docId := by
      intro d hd
      have hlt := hWF.2 d hd
      show d.docId ≠ st0.nextDocId
      omega
    have hupd2 : updateById (st0.subs ++ [rtDoc st0 d1 fid1 ftok1 n1])
        (rtDoc st0 d1 fid1 ftok1 n1).docId
        (fun d => { d with
          status := "unsubscribed"
          unsubscribed_at := some n2
          updated_at := n2 })
        = (st0.subs ++ [rtDocUnsub st0 d1 fid1 ftok1 n1 n2], 1) := by
      rw [updateById_append_of_ne _ _ _ _ hids]
      simp [updateById, rtDocUnsub]
    have hc2 : unsubscribe { st0 with
          subs := st0.subs ++ [rtDoc st0 d1 fid1 ftok1 n1],
          nextDocId := st0.nextDocId + 1 } d1.email t1 n2
        = (.ok "Successfully unsubscribed",
           { st0 with
             subs := st0.subs ++ [rtDocUnsub st0 d1 fid1 ftok1 n1 n2],
             nextDocId := st0.nextDocId + 1 }) := by
      simp [unsubscribe, hfind2, hupd2]
    refine ⟨by rw [hc1, hc2], ?_⟩
    rw [hc1, hc2] at h3
    have hdup3 : isEmailSubscribed { st0 with
        subs := st0.subs ++ [rtDocUnsub st0 d1 fid1 ftok1 n1 n2],
        nextDocId := st0.nextDocId + 1 } (normEmail d3.email) = false := by
      show ((st0.subs ++ [rtDocUnsub st0 d1 fid1 ftok1 n1 n2]).find?
          (fun d => d.email == normEmail (normEmail d3.email)
            && d.status == "active")).isSome = false
      rw [hem, normEmail_idem]
      have hold3 : ∀ a ∈ st0.subs, (a.email == normEmail d1.email
          && a.status == "active") = false := by
        intro a ha
        have h5 : (a.email == normEmail d1.email) = false := by
          simpa using hno a ha
        simp [h5]
      rw [find?_append_of_none _ _ _ hold3,
        List.find?_cons_of_neg _ (by simp [rtDocUnsub, rtDoc, newSubDoc])]
      rfl
    cases hg3 : (if d3.subscriptionType.getD "all" = "filtered"
        then filteredGate { st0 with
            subs := st0.subs ++ [rtDocUnsub st0 d1 fid1 ftok1 n1 n2],
            nextDocId := st0.nextDocId + 1 } (normEmail d3.email) auth3
            (pyStrip (d3.user_id.getD ""))
        else Sum.inr (some (pyStrip (d3.user_id.getD "")))) with
    | inl r =>
      exfalso
      have h3r : r = CreateResult.ok i3 em3 t3 re3 := by
        simpa [createSubscription, hdup3, hg3] using h3
      by_cases hreq : d3.subscriptionType.getD "all" = "filtered"
      · rw [if_pos hreq] at hg3
        rcases filteredGate_inl_err _ _ _ _ _ hg3 with ⟨msg, code, hr⟩
        rw [hr] at h3r
        exact absurd h3r (by simp)
      · rw [if_neg hreq] at hg3
        exact absurd hg3 (by simp)
    | inr uidVar3 =>
      have hold4 : ∀ a ∈ st0.subs, (a.email == normEmail d3.email
          && a.status == "unsubscribed") = false := by
        intro a ha
        have h5 : (a.email == normEmail d3.email) = false := by
          rw [hem]
          simpa using hno a ha
        simp [h5]
      have hfu3 : (st0.subs ++ [rtDocUnsub st0 d1 fid1 ftok1 n1 n2]).find?
          (fun d => d.email == normEmail d3.email && d.status == "unsubscribed")
          = some (rtDocUnsub st0 d1 fid1 ftok1 n1 n2) := by
        rw [find?_append_of_none _ _ _ hold4]
        refine List.find?_cons_of_pos _ ?_
        simp [rtDocUnsub, rtDoc, newSubDoc, hem]
      have hmem3 : rtDocUnsub st0 d1 fid1 ftok1 n1 n2
          ∈ st0.subs ++ [rtDocUnsub st0 d1 fid1 ftok1 n1 n2] := by
        simp
      have hmod3 := updateById_snd_of_mem _ _
        (reactivateUpdate d3 (d3.subscriptionType.getD "all") uidVar3
          (rtDocUnsub st0 d1 fid1 ftok1 n1 n2) n3) hmem3
      replace h3 : CreateResult.ok fid1 (normEmail d1.email) ftok1 true
          = CreateResult.ok i3 em3 t3 re3 := by
        have hc3 := h3
        simp only [createSubscription, hdup3, hg3, hfu3, hmod3] at hc3
        simpa [rtDocUnsub, rtDoc, newSubDoc] using hc3
      injection h3 with hi3 hem3 ht3 hre3
      exact ⟨hi3.symm.trans hi1, ht3.symm.trans ht1, hre3.symm⟩

/-- Witness for C3: subscribe `a@x.com` on the empty store, unsubscribe with
the returned token, subscribe again — the reactivation returns the original
id `id1` and token `tok1` even though the second call supplies `id2`/`tok2`. -/
theorem create_unsubscribe_create_roundtrip_witness :
    (unsubscribe (createSubscription ⟨[], [], [], 0⟩
        ⟨"a@x.com", none, [], [], [], none⟩ none "id1" "tok1" 1).2
        "a@x.com" "tok1" 2).1
      = .ok "Successfully unsubscribed"
    ∧ "id1" = "id1" ∧ "tok1" = "tok1" ∧ (true : Bool) = true :=
  create_unsubscribe_create_roundtrip ⟨[], [], [], 0⟩
    ⟨"a@x.com", none, [], [], [], none⟩ ⟨"a@x.com", none, [], [], [], none⟩
    none none "id1" "tok1" "id2" "tok2" 1 2 3
    "id1" "a@x.com" "tok1" false "id1" "a@x.com" "tok1" true
    ⟨by decide, by decide⟩ (by decide) (by decide) (by decide) (by decide)

end AzTracker
